import Mathlib

/-!
# Verification of pyFiona.py against its specification

Shallow embedding of the matching-and-transfer engine of `pyFiona.py`:
the project matcher (`FionaProject.decode`), the subject registry client
(`FionaProject.fiona_create_subject`), the accession synthesizer
(`generate_accession_number`), the folder scanner (`scan_dicom_folder`),
the coupling builder (`fiona_generate_coupling`) and the transfer session
manager (`send_dicom_folder` / `send_dicom_filelist`).

Remote I/O (HTTP registry responses, C-STORE statuses) is modelled by
explicit oracle arguments; files are modelled by their parsed DICOM
attributes.  An uncaught Python exception is modelled as `Except.error ()`
or, in trace-producing functions, by an explicit `crashed` flag.
-/

namespace PyFiona

/-! ## Embedded definitions -/

/-- Python index normalisation: a negative index counts from the end. -/
def pyNorm (len : Nat) (i : Int) : Int :=
  if i < 0 then i + len else i

/-- Python list indexing `l[i]` with negative-index wraparound;
`.error ()` models an `IndexError`. -/
def pyListIndex {α : Type} (l : List α) (i : Int) : Except Unit α :=
  if 0 ≤ pyNorm l.length i then
    match l.get? (pyNorm l.length i).toNat with
    | some a => .ok a
    | none => .error ()
  else .error ()

/-- Numeric value of a list of decimal digit characters. -/
def digitsVal (ds : List Char) : Nat :=
  ds.foldl (fun acc c => 10 * acc + (c.toNat - 48)) 0

/-- Strip leading and trailing whitespace from a character list. -/
def stripChars (ds : List Char) : List Char :=
  ((ds.dropWhile Char.isWhitespace).reverse.dropWhile Char.isWhitespace).reverse

/-- Python `int(s)`: optional sign and decimal digits after stripping
surrounding whitespace; `.error ()` models a `ValueError`. -/
def pyInt (s : String) : Except Unit Int :=
  match stripChars s.data with
  | [] => .error ()
  | '-' :: ds =>
    if !ds.isEmpty && ds.all Char.isDigit then .ok (-(digitsVal ds : Int)) else .error ()
  | '+' :: ds =>
    if !ds.isEmpty && ds.all Char.isDigit then .ok ((digitsVal ds : Int)) else .error ()
  | ds =>
    if ds.all Char.isDigit then .ok ((digitsVal ds : Int)) else .error ()

/-- The named capture groups `subj_id` / `event_id` that every project pattern
exposes (`result.groupdict()` in `FionaProject.decode`). -/
structure Groups where
  subj_id : String
  event_id : String
deriving DecidableEq

/-- A Fiona project: `name`, the compiled label pattern (`self._re.match`
modelled as a function returning the capture groups on a match), the subject
template (`self._subj_temp.format(**data)` modelled as a function of the
groups), and the `events` / `subjects` lists fetched from the registry at
construction time. -/
structure FionaProject where
  name : String
  re_match : String → Option Groups
  subj_temp : Groups → String
  events : List String
  subjects : List String

/-- `FionaProject.decode` (pyFiona.py lines 38-48): match the pattern against
the label; on a match, convert the `event_id` capture with `int(...)`, return
`none` when it exceeds `len(self.events)`, otherwise format the subject id and
look up `self.events[int(event_id) - 1]` with Python list-index semantics. -/
def decode (p : FionaProject) (text : String) : Except Unit (Option (String × String)) :=
  match p.re_match text with
  | none => .ok none
  | some data =>
    match pyInt data.event_id with
    | .error e => .error e
    | .ok eid =>
      if eid > (p.events.length : Int) then
        .ok none
      else
        let subj_id := p.subj_temp data
        match pyListIndex p.events (eid - 1) with
        | .error e => .error e
        | .ok event_id => .ok (some (subj_id, event_id))

/-- JSON body of the `createNewName.php` response: an optional `error` code and
a `message` field. -/
structure RemoteResp where
  error : Option Int
  message : String
deriving DecidableEq

/-- `FionaProject.fiona_create_subject` (pyFiona.py lines 50-63), with the
remote response passed in explicitly.  Returns the boolean result, the updated
project, and the number of remote requests issued. -/
def fiona_create_subject (p : FionaProject) (subj_id : String) (resp : RemoteResp) :
    Bool × FionaProject × Nat :=
  if subj_id ∈ p.subjects then
    (true, p, 0)
  else
    match resp.error with
    | some e =>
      if e = 1 then (false, p, 1)
      else (true, { p with subjects := p.subjects ++ [subj_id] }, 1)
    | none => (true, { p with subjects := p.subjects ++ [subj_id] }, 1)

/-- `re.match` for the pattern `NDOSE_(?P<subj_id>L\d\x7b3\x7d)_(?P<event_id>\d)`
with literal lead digit `L` (the two `gen_projects` patterns use `5` and `3`):
anchored at the start of the label only, so trailing characters are ignored. -/
def ndoseMatch (lead : Char) (text : String) : Option Groups :=
  match text.data with
  | n :: d :: o :: s :: eC :: u1 :: d0 :: d1 :: d2 :: d3 :: u2 :: ev :: _ =>
    if (n == 'N') && (d == 'D') && (o == 'O') && (s == 'S') && (eC == 'E')
        && (u1 == '_') && (d0 == lead) && d1.isDigit && d2.isDigit && d3.isDigit
        && (u2 == '_') && ev.isDigit then
      some ⟨String.mk [d0, d1, d2, d3], String.mk [ev]⟩
    else none
  | _ => none

/-- Subject template `N-DOSE_AD_{subj_id}` of the `N-DOSE_AD` project. -/
def adTemplate (g : Groups) : String := "N-DOSE_AD_" ++ g.subj_id

/-- Subject template `PD_{subj_id}` of the `N-DOSE` project. -/
def pdTemplate (g : Groups) : String := "PD_" ++ g.subj_id

/-- The `N-DOSE_AD` project of `gen_projects` (pyFiona.py lines 171-184); the
`events` and `subjects` lists are the registry data fetched at construction. -/
def mkNdoseAD (events subjects : List String) : FionaProject :=
  { name := "N-DOSE_AD", re_match := ndoseMatch '5', subj_temp := adTemplate,
    events := events, subjects := subjects }

/-- The `N-DOSE` project of `gen_projects` (pyFiona.py lines 171-184). -/
def mkNdose (events subjects : List String) : FionaProject :=
  { name := "N-DOSE", re_match := ndoseMatch '3', subj_temp := pdTemplate,
    events := events, subjects := subjects }

/-- `gen_projects` (pyFiona.py lines 171-184), parameterised by the registry
data fetched for each project in `fiona_get_projinfo`. -/
def gen_projects (adEvents adSubjects ndEvents ndSubjects : List String) :
    List FionaProject :=
  [mkNdoseAD adEvents adSubjects, mkNdose ndEvents ndSubjects]

/-- Truncation to a 32-bit word. -/
def w32 (x : Nat) : Nat := x % 4294967296

/-- 32-bit right rotation. -/
def rotr (n x : Nat) : Nat := (x >>> n) ||| ((x <<< (32 - n)) % 4294967296)

def shaCh (e f g : Nat) : Nat := (e &&& f) ^^^ ((e ^^^ 4294967295) &&& g)

def shaMaj (a b c : Nat) : Nat := (a &&& b) ^^^ (a &&& c) ^^^ (b &&& c)

def bigSigma0 (x : Nat) : Nat := rotr 2 x ^^^ rotr 13 x ^^^ rotr 22 x

def bigSigma1 (x : Nat) : Nat := rotr 6 x ^^^ rotr 11 x ^^^ rotr 25 x

def smallSigma0 (x : Nat) : Nat := rotr 7 x ^^^ rotr 18 x ^^^ (x >>> 3)

def smallSigma1 (x : Nat) : Nat := rotr 17 x ^^^ rotr 19 x ^^^ (x >>> 10)

/-- The 64 SHA-256 round constants, written in decimal. -/
def shaK : List Nat :=
  [1116352408, 1899447441, 3049323471, 3921009573, 961987163,
   1508970993, 2453635748, 2870763221, 3624381080, 310598401,
   607225278, 1426881987, 1925078388, 2162078206, 2614888103,
   3248222580, 3835390401, 4022224774, 264347078, 604807628,
   770255983, 1249150122, 1555081692, 1996064986, 2554220882,
   2821834349, 2952996808, 3210313671, 3336571891, 3584528711,
   113926993, 338241895, 666307205, 773529912, 1294757372,
   1396182291, 1695183700, 1986661051, 2177026350, 2456956037,
   2730485921, 2820302411, 3259730800, 3345764771, 3516065817,
   3600352804, 4094571909, 275423344, 430227734, 506948616,
   659060556, 883997877, 958139571, 1322822218, 1537002063,
   1747873779, 1955562222, 2024104815, 2227730452, 2361852424,
   2428436474, 2756734187, 3204031479, 3329325298]

/-- The eight working variables of the SHA-256 state. -/
structure Hash8 where
  a : Nat
  b : Nat
  c : Nat
  d : Nat
  e : Nat
  f : Nat
  g : Nat
  h : Nat

/-- The SHA-256 initial hash value, written in decimal. -/
def initH : Hash8 :=
  ⟨1779033703, 3144134277, 1013904242, 2773480762,
   1359893119, 2600822924, 528734635, 1541459225⟩

/-- One SHA-256 compression round, consuming a (round constant, schedule word) pair. -/
def shaRound (st : Hash8) (kw : Nat × Nat) : Hash8 :=
  let t1 := w32 (st.h + bigSigma1 st.e + shaCh st.e st.f st.g + kw.1 + kw.2)
  let t2 := w32 (bigSigma0 st.a + shaMaj st.a st.b st.c)
  ⟨w32 (t1 + t2), st.a, st.b, st.c, w32 (st.d + t1), st.e, st.f, st.g⟩

/-- Big-endian 4-byte groups to 32-bit words. -/
def bytesToWords : List Nat → List Nat
  | b0 :: b1 :: b2 :: b3 :: rest =>
    (((b0 * 256 + b1) * 256 + b2) * 256 + b3) :: bytesToWords rest
  | _ => []

/-- Next message-schedule word from the last 16 schedule entries. -/
def nextW (w : List Nat) : Nat :=
  let n := w.length
  w32 (smallSigma1 (w.getD (n - 2) 0) + w.getD (n - 7) 0 +
       smallSigma0 (w.getD (n - 15) 0) + w.getD (n - 16) 0)

/-- Extend the message schedule by `t` further words. -/
def extendW : Nat → List Nat → List Nat
  | 0, w => w
  | t + 1, w => extendW t (w ++ [nextW w])

/-- Process one 64-byte block. -/
def processBlock (st : Hash8) (block : List Nat) : Hash8 :=
  let w := extendW 48 (bytesToWords block)
  let r := (shaK.zip w).foldl shaRound st
  ⟨w32 (st.a + r.a), w32 (st.b + r.b), w32 (st.c + r.c), w32 (st.d + r.d),
   w32 (st.e + r.e), w32 (st.f + r.f), w32 (st.g + r.g), w32 (st.h + r.h)⟩

/-- Split a byte list into 64-byte blocks. -/
def toBlocks (bs : List Nat) : List (List Nat) :=
  if h : bs = [] then []
  else bs.take 64 :: toBlocks (bs.drop 64)
termination_by bs.length
decreasing_by
  simp only [List.length_drop]
  have hne : bs.length ≠ 0 := fun hl => h (List.eq_nil_of_length_eq_zero hl)
  omega

/-- Big-endian 8-byte encoding of the bit length. -/
def lenBytes8 (n : Nat) : List Nat :=
  [(n >>> 56) % 256, (n >>> 48) % 256, (n >>> 40) % 256, (n >>> 32) % 256,
   (n >>> 24) % 256, (n >>> 16) % 256, (n >>> 8) % 256, n % 256]

/-- SHA-256 padding: `0x80`, zeros to 56 mod 64, then the 64-bit bit length. -/
def sha256pad (msg : List Nat) : List Nat :=
  let len := msg.length
  let k := (120 - ((len + 1) % 64)) % 64
  msg ++ [128] ++ List.replicate k 0 ++ lenBytes8 (len * 8)

/-- The final SHA-256 state of a byte-list message. -/
def sha256state (msg : List Nat) : Hash8 :=
  (toBlocks (sha256pad msg)).foldl processBlock initH

/-- Lowercase hexadecimal digit for a value below 16. -/
def hexChar (n : Nat) : Char :=
  if n < 10 then Char.ofNat (48 + n) else Char.ofNat (87 + n)

/-- Two lowercase hex characters of one byte. -/
def byteHex (b : Nat) : List Char := [hexChar (b / 16), hexChar (b % 16)]

/-- Big-endian bytes of one 32-bit word. -/
def wordBytes (x : Nat) : List Nat :=
  [(x >>> 24) % 256, (x >>> 16) % 256, (x >>> 8) % 256, x % 256]

/-- The 32 digest bytes of a final SHA-256 state. -/
def digestBytes (st : Hash8) : List Nat :=
  wordBytes st.a ++ wordBytes st.b ++ wordBytes st.c ++ wordBytes st.d ++
  wordBytes st.e ++ wordBytes st.f ++ wordBytes st.g ++ wordBytes st.h

/-- `hashlib.sha256(msg).hexdigest()`: 64 lowercase hex characters. -/
def sha256_hexdigest (msg : List Nat) : String :=
  String.mk ((digestBytes (sha256state msg)).bind byteHex)

/-- A character is a lowercase hexadecimal digit. -/
def isLowerHex (c : Char) : Bool :=
  (('0' ≤ c) && (c ≤ '9')) || (('a' ≤ c) && (c ≤ 'f'))

/-- Python `bytes(s, 'ascii')`; `none` models the `UnicodeEncodeError` raised on
a non-ASCII character. -/
def pyAsciiEncode (s : String) : Option (List Nat) :=
  if s.data.all (fun c => c.toNat < 128) then some (s.data.map Char.toNat) else none

/-- Python string slice `s[-n:]` (the last `n` characters, or all of them when
`s` is shorter than `n`). -/
def lastSlice (n : Nat) (s : String) : String :=
  String.mk (s.data.drop (s.data.length - n))

/-- A DICOM dataset, reduced to the two attributes the accession synthesizer
reads and writes. -/
structure DicomFile where
  AccessionNumber : String
  StudyInstanceUID : String
deriving DecidableEq

/-- `generate_accession_number` (pyFiona.py lines 98-102): keep a non-empty
accession number; otherwise assign the last 16 characters of the SHA-256 hex
digest of the ASCII bytes of `StudyInstanceUID`.  `none` models the
`UnicodeEncodeError` from `bytes(..., 'ascii')`. -/
def generate_accession_number (dcm : DicomFile) : Option DicomFile :=
  if dcm.AccessionNumber.length > 0 then some dcm
  else
    match pyAsciiEncode dcm.StudyInstanceUID with
    | none => none
    | some data =>
      some { dcm with AccessionNumber := lastSlice 16 (sha256_hexdigest data) }

/-- ASCII bytes of the instance UID `STUDY.1.2.3`. -/
def studyBytes : List Nat := [83, 84, 85, 68, 89, 46, 49, 46, 50, 46, 51]

/-- One transfer folder: the sentinel flag (the `complete` file) and the
recursively-listed member files, modelled by their parsed datasets. -/
structure TransferFolder where
  hasSentinel : Bool
  files : List DicomFile
deriving DecidableEq

/-- `send_dicom_filelist` (pyFiona.py lines 154-169): for each file, run the
accession synthesizer and issue a C-STORE.  `if not status` is true only for
an empty status Dataset, and that branch then crashes reading `status.Status`
(`AttributeError` on an empty Dataset), so the boolean `False` return is
unreachable.  Returns the stores issued and `some result` / `none` for an
uncaught exception. -/
def send_dicom_filelist (oracle : DicomFile → Option Nat) :
    List DicomFile → List DicomFile × Option Bool
  | [] => ([], some true)
  | f :: rest =>
    match generate_accession_number f with
    | none => ([], none)
    | some dcm =>
      match oracle dcm with
      | none => ([dcm], none)
      | some _ =>
        let r := send_dicom_filelist oracle rest
        (dcm :: r.1, r.2)

/-- Result of a `send_dicom_folder` run: the C-STOREs issued in order, the
folder states afterwards, whether an exception escaped the loop, and whether
`assoc.release()` was reached. -/
structure TransferRun where
  stores : List DicomFile
  folders : List TransferFolder
  crashed : Bool
  released : Bool
deriving DecidableEq

/-- The per-folder loop of `send_dicom_folder` (pyFiona.py lines 141-151):
skip folders whose sentinel exists; otherwise send the file list and, when it
returns `True`, write the sentinel.  An uncaught exception stops the loop and
leaves the remaining folders untouched. -/
def sendFolderLoop (oracle : DicomFile → Option Nat) :
    List TransferFolder → List DicomFile × List TransferFolder × Bool
  | [] => ([], [], false)
  | fo :: rest =>
    if fo.hasSentinel then
      let r := sendFolderLoop oracle rest
      (r.1, fo :: r.2.1, r.2.2)
    else
      let s := send_dicom_filelist oracle fo.files
      match s.2 with
      | none => (s.1, fo :: rest, true)
      | some ok =>
        let fo2 := if ok then { fo with hasSentinel := true } else fo
        let r := sendFolderLoop oracle rest
        (s.1 ++ r.1, fo2 :: r.2.1, r.2.2)

/-- `send_dicom_folder` (pyFiona.py lines 127-152), with the association
outcome and the per-store statuses supplied by oracles.  `assoc.release()` is
reached unless an exception escaped the folder loop. -/
def send_dicom_folder (oracle : DicomFile → Option Nat) (established : Bool)
    (folders : List TransferFolder) : TransferRun :=
  if established then
    let r := sendFolderLoop oracle folders
    { stores := r.1, folders := r.2.1, crashed := r.2.2, released := !r.2.2 }
  else
    { stores := [], folders := folders, crashed := false, released := true }

/-- The five files of the C1 failing folder; their accession numbers are
non-empty, so the synthesizer leaves them unchanged. -/
def c1Files : List DicomFile :=
  [⟨"A1", "1.2.1"⟩, ⟨"A2", "1.2.2"⟩, ⟨"A3", "1.2.3"⟩, ⟨"A4", "1.2.4"⟩, ⟨"A5", "1.2.5"⟩]

/-- C-STORE status oracle for C1: the third file fails with status 0xC000,
every other store succeeds with 0x0000; every response Dataset is non-empty. -/
def c1Oracle (d : DicomFile) : Option Nat :=
  if d.StudyInstanceUID = "1.2.3" then some 49152 else some 0

/-- The attributes `scan_dicom_folder` reads from one file. -/
structure ScanRecord where
  patientName : String
  accessionNumber : String
  studyInstanceUID : String
deriving DecidableEq

/-- A message printed by `scan_dicom_folder`: the `Found ...` line, the print
of a caught per-file exception, and the final summary count. -/
inductive ScanMsg where
  | found (patient accession : String)
  | readError
  | summary (n : Nat)
deriving DecidableEq

/-- The body of lines 89-92 of pyFiona.py, reached for the first readable file
of a directory: record the patient only if not yet present (first occurrence
wins), print `Found ...` only in that case, then `break`. -/
def scanHit (studies : List (String × String)) (pn acc : String) :
    List (String × String) × List ScanMsg :=
  if (studies.lookup pn).isSome then
    (studies, [])
  else
    (studies ++ [(pn, acc)], [.found pn acc])

/-- The per-directory loop of `scan_dicom_folder` (pyFiona.py lines 82-94):
try files until one is fully readable (the accession synthesizer runs inside
the same `try`, so its exception is also caught and the file skipped), then
`scanHit` and `break` to the next directory. -/
def scanDir (studies : List (String × String)) :
    List (Option ScanRecord) → List (String × String) × List ScanMsg
  | [] => (studies, [])
  | none :: rest =>
    let r := scanDir studies rest
    (r.1, .readError :: r.2)
  | some rec0 :: rest =>
    match generate_accession_number ⟨rec0.accessionNumber, rec0.studyInstanceUID⟩ with
    | none =>
      let r := scanDir studies rest
      (r.1, .readError :: r.2)
    | some dcm => scanHit studies rec0.patientName dcm.AccessionNumber

/-- The directory walk of `scan_dicom_folder` (pyFiona.py lines 81-94),
threading the studies dict and concatenating the printed messages. -/
def scanWalk (studies : List (String × String)) :
    List (List (Option ScanRecord)) → List (String × String) × List ScanMsg
  | [] => (studies, [])
  | d :: ds =>
    let r := scanDir studies d
    let r2 := scanWalk r.1 ds
    (r2.1, r.2 ++ r2.2)

/-- `scan_dicom_folder` (pyFiona.py lines 79-96): the walk from an empty dict
plus the final summary print. -/
def scan_dicom_folder (dirs : List (List (Option ScanRecord))) :
    List (String × String) × List ScanMsg :=
  let r := scanWalk [] dirs
  (r.1, r.2 ++ [.summary r.1.length])

/-- The coupling artifact header row written at line 114 of pyFiona.py. -/
def couplingHeader : String := "AccessionNumber,ProjectName,subjectid,eventname\r\n"

/-- One CRLF-terminated coupling data row (line 123 of pyFiona.py). -/
def rowString (accession name subj ev : String) : String :=
  accession ++ "," ++ name ++ "," ++ subj ++ "," ++ ev ++ "\r\n"

/-- The inner project loop for one study (pyFiona.py lines 116-125): try the
projects in order; for the first whose decode yields a match, ensure the
subject exists (possibly mutating that project's cache, with the remote
response supplied by `oracle`), emit the row and `break`. -/
def coupleStudy (oracle : String → String → RemoteResp) (studyname accession : String) :
    List FionaProject → Except Unit (String × List FionaProject)
  | [] => .ok ("", [])
  | proj :: rest =>
    match decode proj studyname with
    | .error e => .error e
    | .ok none =>
      match coupleStudy oracle studyname accession rest with
      | .error e => .error e
      | .ok (s, rest2) => .ok (s, proj :: rest2)
    | .ok (some (subj_id, event_id)) =>
      let proj2 := if subj_id ∈ proj.subjects then proj
                   else (fiona_create_subject proj subj_id (oracle proj.name subj_id)).2.1
      .ok (rowString accession proj.name subj_id event_id, proj2 :: rest)

/-- The study loop of `fiona_generate_coupling` (pyFiona.py lines 115-125),
threading the mutable project states through the studies in scan order. -/
def coupleAll (oracle : String → String → RemoteResp) :
    List (String × String) → List FionaProject → Except Unit (String × List FionaProject)
  | [], projects => .ok ("", projects)
  | (studyname, accession) :: rest, projects =>
    match coupleStudy oracle studyname accession projects with
    | .error e => .error e
    | .ok (row, projects2) =>
      match coupleAll oracle rest projects2 with
      | .error e => .error e
      | .ok (s, projects3) => .ok (row ++ s, projects3)

/-- `fiona_generate_coupling` (pyFiona.py lines 112-125): the written file
content (header plus data rows) and the final project states; `studies` is
the scanner's output in insertion order. -/
def fiona_generate_coupling (oracle : String → String → RemoteResp)
    (projects : List FionaProject) (studies : List (String × String)) :
    Except Unit (String × List FionaProject) :=
  match coupleAll oracle studies projects with
  | .error e => .error e
  | .ok (s, ps) => .ok (couplingHeader ++ s, ps)

/-- Modelled from the spec (section 4.3, multi-project resolution): projects
are tried in configured order and the first non-none decode wins; this
definition follows the spec's words and is compared against the builder. -/
def firstDecode (studyname : String) :
    List FionaProject → Except Unit (Option (String × String × String))
  | [] => .ok none
  | proj :: rest =>
    match decode proj studyname with
    | .error e => .error e
    | .ok none => firstDecode studyname rest
    | .ok (some (subj_id, event_id)) => .ok (some (proj.name, subj_id, event_id))

/-- Modelled from the spec (section 4.5): one optional row per study in scan
order — the row of the first matching project, nothing for an unmatched
study. -/
def specRowList (projects : List FionaProject) :
    List (String × String) → Except Unit (List String)
  | [] => .ok []
  | (studyname, accession) :: rest =>
    match firstDecode studyname projects with
    | .error e => .error e
    | .ok none => specRowList projects rest
    | .ok (some (n, subj_id, event_id)) =>
      match specRowList projects rest with
      | .error e => .error e
      | .ok rows => .ok (rowString accession n subj_id event_id :: rows)

/-- Concatenation of rows in order. -/
def concatRows : List String → String
  | [] => ""
  | r :: rs => r ++ concatRows rs

/-- The text a first-match outcome contributes for one study. -/
def rowOf (accession : String) : Option (String × String × String) → String
  | none => ""
  | some (n, subj_id, event_id) => rowString accession n subj_id event_id

/-- Whether some project matches the study label under first-match. -/
def matchedStudy (projects : List FionaProject) (studyname : String) : Bool :=
  match firstDecode studyname projects with
  | .ok (some _) => true
  | _ => false

/-- Everything `decode` and the row text read from a project — the subjects
cache is deliberately excluded. -/
def sameCore (p q : FionaProject) : Prop :=
  p.name = q.name ∧ p.re_match = q.re_match ∧ p.subj_temp = q.subj_temp ∧ p.events = q.events

/-- Remote-response oracle used by the coupling witnesses. -/
def wOracle : String → String → RemoteResp := fun _ _ => ⟨none, "ok"⟩

/-- A second project whose pattern also matches `NDOSE_5xxx` labels. -/
def wProjB : FionaProject :=
  { name := "P2", re_match := ndoseMatch '5', subj_temp := adTemplate,
    events := ["x1"], subjects := [] }

/-- Scanner output for the C7 witness: one study both projects would match,
one study no project matches. -/
def wStudies : List (String × String) := [("NDOSE_5001_1", "ACC1"), ("OTHER", "ACC2")]

/-- Expected C7 witness artifact content. -/
def wContent : String :=
  "AccessionNumber,ProjectName,subjectid,eventname\r\nACC1,N-DOSE_AD,N-DOSE_AD_5001,e1\r\n"

/-- Scanner output for the C8 witness: one matching, one non-matching study. -/
def wStudies2 : List (String × String) := [("NDOSE_5002_2", "AX"), ("Bob", "B2")]

/-- The single data row of the C8 witness artifact. -/
def wRow2 : String := "AX,N-DOSE_AD,N-DOSE_AD_5002,e2\r\n"

/-! ## Theorems -/

theorem pyListIndex_neg_one {α : Type} (l : List α) (h : l ≠ []) :
    pyListIndex l (-1) = .ok (l.getLast h) := by
  have hlen : 0 < l.length := List.length_pos.mpr h
  have hnorm : pyNorm l.length (-1) = (l.length : Int) - 1 := by
    simp only [pyNorm]
    rw [if_pos (by omega)]
    omega
  unfold pyListIndex
  rw [hnorm, if_pos (by omega)]
  have htn : ((l.length : Int) - 1).toNat = l.length - 1 := by omega
  rw [htn, List.get?_eq_get (by omega)]
  rw [List.getLast_eq_get]

/-- On a successful call, the subject id is in the returned cache. -/
theorem create_subject_mem (p : FionaProject) (subj_id : String) (resp : RemoteResp)
    (h : (fiona_create_subject p subj_id resp).1 = true) :
    subj_id ∈ (fiona_create_subject p subj_id resp).2.1.subjects := by
  by_cases hm : subj_id ∈ p.subjects
  · simp [fiona_create_subject, hm]
  · cases he : resp.error with
    | none => simp [fiona_create_subject, hm, he]
    | some e =>
      by_cases h1 : e = 1
      · exfalso
        rw [fiona_create_subject, if_neg hm, he] at h
        simp [h1] at h
      · simp [fiona_create_subject, hm, he, h1]

/-- C2 counterexample: the label `NDOSE_5001_0` matches the `N-DOSE_AD`
pattern with event index 0 (less than 1), yet `decode` does not return `none`:
Python's negative list indexing resolves `events[-1]` to the LAST event. -/
theorem decode_event_zero_cex :
    pyInt "0" = .ok 0 ∧ (0 : Int) < 1 ∧
    decode (mkNdoseAD ["e1", "e2", "e3"] []) "NDOSE_5001_0" =
      .ok (some ("N-DOSE_AD_5001", "e3")) ∧
    decode (mkNdoseAD ["e1", "e2", "e3"] []) "NDOSE_5001_0" ≠ .ok none := by
  have hmain : decode (mkNdoseAD ["e1", "e2", "e3"] []) "NDOSE_5001_0" =
      .ok (some ("N-DOSE_AD_5001", "e3")) := by rfl
  refine ⟨by rfl, by decide, hmain, ?_⟩
  rw [hmain]
  simp

/-- C2 (amended): on a match, an event index greater than the number of events
makes `decode` return `none` without crashing; but an index less than 1 is NOT
rejected — an index of 0 is accepted and, with a nonempty events list, yields
the subject id together with the LAST event via Python negative indexing. -/
theorem decode_event_range (p : FionaProject) (text : String) (data : Groups) (eid : Int)
    (hm : p.re_match text = some data) (hp : pyInt data.event_id = .ok eid) :
    ((p.events.length : Int) < eid → decode p text = .ok none) ∧
    (eid = 0 → ∀ h : p.events ≠ [],
      decode p text = .ok (some (p.subj_temp data, p.events.getLast h))) := by
  constructor
  · intro hlt
    simp only [decode, hm, hp]
    rw [if_pos hlt]
  · intro h0 hne
    subst h0
    simp only [decode, hm, hp]
    rw [if_neg (by omega)]
    have hm1 : (0 : Int) - 1 = -1 := by omega
    rw [hm1, pyListIndex_neg_one p.events hne]

/-- Witness for `decode_event_range`: with three configured events, event
index 9 is rejected as out of range, and event index 0 resolves to `e3`. -/
theorem decode_event_range_witness :
    decode (mkNdoseAD ["e1", "e2", "e3"] []) "NDOSE_5001_9" = .ok none ∧
    decode (mkNdoseAD ["e1", "e2", "e3"] []) "NDOSE_5001_0" =
      .ok (some ("N-DOSE_AD_5001", "e3")) := by
  constructor
  · exact (decode_event_range (mkNdoseAD ["e1", "e2", "e3"] []) "NDOSE_5001_9"
      ⟨"5001", "9"⟩ 9 (by rfl) (by rfl)).1 (by decide)
  · exact (decode_event_range (mkNdoseAD ["e1", "e2", "e3"] []) "NDOSE_5001_0"
      ⟨"5001", "0"⟩ 0 (by rfl) (by rfl)).2 rfl (by simp [mkNdoseAD])

/-- C3 counterexample: a response with `error = 2` — present and nonzero — is
treated as success: the call returns `True`, appends the subject to the cache
and has issued one remote request, contradicting the claim that any nonzero
`error` yields failure with an unchanged cache. -/
theorem create_subject_error_two_cex :
    (fiona_create_subject (mkNdoseAD ["e1"] []) "X" ⟨some 2, "m"⟩).1 = true ∧
    (fiona_create_subject (mkNdoseAD ["e1"] []) "X" ⟨some 2, "m"⟩).2.1.subjects = ["X"] ∧
    (fiona_create_subject (mkNdoseAD ["e1"] []) "X" ⟨some 2, "m"⟩).2.2 = 1 ∧
    (2 : Int) ≠ 0 :=
  ⟨rfl, rfl, rfl, by decide⟩

/-- C3 (amended): for an uncached subject, failure (with an untouched cache)
happens exactly when the response carries `error = 1`; any other response —
`error` absent, zero, or any value other than 1, including other nonzero
values — is treated as success and the subject id is appended to the cache. -/
theorem create_subject_error_cases (p : FionaProject) (subj_id : String) (resp : RemoteResp)
    (hnot : subj_id ∉ p.subjects) :
    (resp.error = some 1 → fiona_create_subject p subj_id resp = (false, p, 1)) ∧
    (resp.error ≠ some 1 →
      fiona_create_subject p subj_id resp =
        (true, { p with subjects := p.subjects ++ [subj_id] }, 1)) := by
  constructor
  · intro h
    simp [fiona_create_subject, hnot, h]
  · intro h
    rw [fiona_create_subject, if_neg hnot]
    cases he : resp.error with
    | none => rfl
    | some e =>
      have h1 : ¬ e = 1 := by
        intro he1
        exact h (by rw [he, he1])
      simp [h1]

/-- Witness for `create_subject_error_cases`: a hard `error = 1` response for
an uncached subject returns failure and leaves the project unchanged. -/
theorem create_subject_error_cases_witness :
    "X" ∉ (mkNdoseAD ["e1"] []).subjects ∧
    fiona_create_subject (mkNdoseAD ["e1"] []) "X" ⟨some 1, "m"⟩ =
      (false, mkNdoseAD ["e1"] [], 1) :=
  ⟨by simp [mkNdoseAD],
   (create_subject_error_cases (mkNdoseAD ["e1"] []) "X" ⟨some 1, "m"⟩
      (by simp [mkNdoseAD])).1 rfl⟩

/-- C6: after a successful first `fiona_create_subject` call the subject id is
in the cache, so a second call with the same project state and subject id
returns success immediately, performs zero remote requests and leaves the
project untouched. -/
theorem create_subject_idempotent (p : FionaProject) (subj_id : String)
    (r1 r2 : RemoteResp) (h : (fiona_create_subject p subj_id r1).1 = true) :
    fiona_create_subject (fiona_create_subject p subj_id r1).2.1 subj_id r2 =
      (true, (fiona_create_subject p subj_id r1).2.1, 0) := by
  have hmem := create_subject_mem p subj_id r1 h
  rw [fiona_create_subject, if_pos hmem]

/-- Witness for `create_subject_idempotent` at a concrete project, subject and
pair of remote responses. -/
theorem create_subject_idempotent_witness :
    (fiona_create_subject (mkNdoseAD ["e1"] []) "X" ⟨none, "ok"⟩).1 = true ∧
    fiona_create_subject
        (fiona_create_subject (mkNdoseAD ["e1"] []) "X" ⟨none, "ok"⟩).2.1 "X" ⟨some 1, "m"⟩ =
      (true, (fiona_create_subject (mkNdoseAD ["e1"] []) "X" ⟨none, "ok"⟩).2.1, 0) :=
  ⟨rfl, create_subject_idempotent (mkNdoseAD ["e1"] []) "X" ⟨none, "ok"⟩ ⟨some 1, "m"⟩ rfl⟩

/-- C10: the compiled patterns match only a prefix of the label (`re.match` is
not end-anchored) and capture a single event digit: every label beginning with
`NDOSE_`, the lead digit, three digits, `_` and one digit matches whatever
follows; concretely `NDOSE_5001_23` decodes with event index 2, using only the
first digit after the second underscore and ignoring the trailing `3`. -/
theorem re_match_ignores_trailing (lead a b c e : Char) (rest : List Char)
    (ha : a.isDigit = true) (hb : b.isDigit = true) (hc : c.isDigit = true)
    (he : e.isDigit = true) :
    ndoseMatch lead (String.mk
        ('N' :: 'D' :: 'O' :: 'S' :: 'E' :: '_' :: lead :: a :: b :: c :: '_' :: e :: rest)) =
      some ⟨String.mk [lead, a, b, c], String.mk [e]⟩ ∧
    decode (mkNdoseAD ["e1", "e2", "e3"] []) "NDOSE_5001_23" =
      .ok (some ("N-DOSE_AD_5001", "e2")) := by
  constructor
  · simp [ndoseMatch, ha, hb, hc, he]
  · rfl

/-- Witness for `re_match_ignores_trailing` at concrete digit characters and a
concrete trailing suffix. -/
theorem re_match_ignores_trailing_witness :
    ndoseMatch '5' (String.mk
        ('N' :: 'D' :: 'O' :: 'S' :: 'E' :: '_' :: '5' :: '0' :: '0' :: '1' :: '_' :: '2' :: ['3'])) =
      some ⟨String.mk ['5', '0', '0', '1'], String.mk ['2']⟩ ∧
    decode (mkNdoseAD ["e1", "e2", "e3"] []) "NDOSE_5001_23" =
      .ok (some ("N-DOSE_AD_5001", "e2")) :=
  re_match_ignores_trailing '5' '0' '0' '1' '2' ['3'] (by decide) (by decide)
    (by decide) (by decide)

theorem length_mk (l : List Char) : (String.mk l).length = l.length := rfl

theorem length_bind_byteHex (l : List Nat) : (l.bind byteHex).length = 2 * l.length := by
  induction l with
  | nil => simp
  | cons b bs ih =>
    simp [byteHex, ih]
    omega

theorem digestBytes_length (st : Hash8) : (digestBytes st).length = 32 := by
  simp [digestBytes, wordBytes]

theorem wordBytes_lt (x : Nat) : ∀ b ∈ wordBytes x, b < 256 := by
  intro b hb
  simp only [wordBytes, List.mem_cons, List.not_mem_nil, or_false] at hb
  rcases hb with rfl | rfl | rfl | rfl <;> exact Nat.mod_lt _ (by norm_num)

theorem digestBytes_lt (st : Hash8) : ∀ b ∈ digestBytes st, b < 256 := by
  intro b hb
  simp only [digestBytes, List.mem_append] at hb
  rcases hb with ((((((h | h) | h) | h) | h) | h) | h) | h <;> exact wordBytes_lt _ _ h

theorem hexChar_isLowerHex : ∀ n, n < 16 → isLowerHex (hexChar n) = true := by
  decide

theorem byteHex_isLowerHex (b : Nat) (hb : b < 256) :
    ∀ c ∈ byteHex b, isLowerHex c = true := by
  intro c hc
  simp only [byteHex, List.mem_cons, List.not_mem_nil, or_false] at hc
  rcases hc with rfl | rfl
  · exact hexChar_isLowerHex _ (by omega)
  · exact hexChar_isLowerHex _ (Nat.mod_lt _ (by norm_num))

theorem sha256_hexdigest_length (msg : List Nat) : (sha256_hexdigest msg).length = 64 := by
  rw [sha256_hexdigest, length_mk, length_bind_byteHex, digestBytes_length]

theorem sha256_hexdigest_lowerHex (msg : List Nat) :
    ∀ c ∈ (sha256_hexdigest msg).data, isLowerHex c = true := by
  intro c hc
  simp only [sha256_hexdigest] at hc
  rw [List.mem_bind] at hc
  obtain ⟨b, hb, hcb⟩ := hc
  exact byteHex_isLowerHex b (digestBytes_lt _ b hb) c hcb

theorem lastSlice_length (s : String) (hs : s.length = 64) :
    (lastSlice 16 s).length = 16 := by
  have : s.data.length = 64 := hs
  rw [lastSlice, length_mk, List.length_drop, this]

theorem lastSlice_subset (n : Nat) (s : String) :
    ∀ c ∈ (lastSlice n s).data, c ∈ s.data := by
  intro c hc
  exact (List.drop_sublist _ _).subset hc

/-- C4: a record with a non-empty accession number is left unchanged; a record
with an empty one is assigned the last 16 characters of the lowercase SHA-256
hex digest of the ASCII bytes of its instance UID — a 16-character lowercase
hexadecimal string — and the synthesized value is a function of the instance
UID alone, hence identical on every invocation for a fixed UID. -/
theorem generate_accession_spec (dcm : DicomFile) :
    (dcm.AccessionNumber ≠ "" → generate_accession_number dcm = some dcm) ∧
    (∀ data, dcm.AccessionNumber = "" → pyAsciiEncode dcm.StudyInstanceUID = some data →
      generate_accession_number dcm =
        some { dcm with AccessionNumber := lastSlice 16 (sha256_hexdigest data) } ∧
      (lastSlice 16 (sha256_hexdigest data)).length = 16 ∧
      ∀ c ∈ (lastSlice 16 (sha256_hexdigest data)).data, isLowerHex c = true) ∧
    (∀ dcm2 : DicomFile, dcm.StudyInstanceUID = dcm2.StudyInstanceUID →
      dcm.AccessionNumber = "" → dcm2.AccessionNumber = "" →
      (generate_accession_number dcm).map DicomFile.AccessionNumber =
        (generate_accession_number dcm2).map DicomFile.AccessionNumber) := by
  refine ⟨?_, ?_, ?_⟩
  · intro hne
    have hpos : 0 < dcm.AccessionNumber.length := by
      cases hA : dcm.AccessionNumber with
      | mk l =>
        cases l with
        | nil => exact absurd hA hne
        | cons c cs => simp [length_mk]
    rw [generate_accession_number, if_pos hpos]
  · intro data hemp henc
    have hzero : ¬ dcm.AccessionNumber.length > 0 := by
      rw [hemp]
      simp [length_mk]
    refine ⟨?_, lastSlice_length _ (sha256_hexdigest_length data), ?_⟩
    · rw [generate_accession_number, if_neg hzero, henc]
    · intro c hc
      exact sha256_hexdigest_lowerHex data c (lastSlice_subset 16 _ c hc)
  · intro dcm2 huid h1 h2
    have hz1 : ¬ dcm.AccessionNumber.length > 0 := by
      rw [h1]
      simp [length_mk]
    have hz2 : ¬ dcm2.AccessionNumber.length > 0 := by
      rw [h2]
      simp [length_mk]
    rw [generate_accession_number, generate_accession_number, if_neg hz1, if_neg hz2, huid]

/-- Witness for `generate_accession_spec` at the instance UID `STUDY.1.2.3`
(non-empty accession kept; empty accession synthesized, 16 characters). -/
theorem generate_accession_spec_witness :
    (DicomFile.mk "ACC" "u").AccessionNumber ≠ "" ∧
    generate_accession_number ⟨"ACC", "u"⟩ = some ⟨"ACC", "u"⟩ ∧
    (DicomFile.mk "" "STUDY.1.2.3").AccessionNumber = "" ∧
    pyAsciiEncode "STUDY.1.2.3" = some studyBytes ∧
    generate_accession_number ⟨"", "STUDY.1.2.3"⟩ =
      some ⟨lastSlice 16 (sha256_hexdigest studyBytes), "STUDY.1.2.3"⟩ ∧
    (lastSlice 16 (sha256_hexdigest studyBytes)).length = 16 := by
  have h1 := (generate_accession_spec ⟨"ACC", "u"⟩).1 (by decide)
  have h2 := (generate_accession_spec ⟨"", "STUDY.1.2.3"⟩).2.1 studyBytes rfl (by decide)
  exact ⟨by decide, h1, rfl, by decide, h2.1, h2.2.1⟩

/-- C5: when every folder already carries the sentinel, a transfer run skips
them all: zero store operations are issued and the folder states are
unchanged (and nothing crashes, so the session is released). -/
theorem resume_idempotent (oracle : DicomFile → Option Nat) (established : Bool)
    (folders : List TransferFolder) (h : ∀ fo ∈ folders, fo.hasSentinel = true) :
    send_dicom_folder oracle established folders =
      { stores := [], folders := folders, crashed := false, released := true } := by
  have hloop : ∀ fs : List TransferFolder, (∀ fo ∈ fs, fo.hasSentinel = true) →
      sendFolderLoop oracle fs = ([], fs, false) := by
    intro fs
    induction fs with
    | nil => intro _; rfl
    | cons fo rest ih =>
      intro hall
      have h1 : fo.hasSentinel = true := hall fo (by simp)
      have h2 := ih (fun x hx => hall x (by simp [hx]))
      simp [sendFolderLoop, h1, h2]
  rw [send_dicom_folder]
  by_cases hest : established
  · rw [if_pos hest, hloop folders h]
    rfl
  · rw [if_neg hest]

/-- Witness for `resume_idempotent`: one folder with a sentinel, no stores. -/
theorem resume_idempotent_witness :
    (∀ fo ∈ [TransferFolder.mk true [⟨"A1", "1.2.1"⟩]], fo.hasSentinel = true) ∧
    send_dicom_folder (fun _ => some 0) true [TransferFolder.mk true [⟨"A1", "1.2.1"⟩]] =
      { stores := [], folders := [TransferFolder.mk true [⟨"A1", "1.2.1"⟩]],
        crashed := false, released := true } :=
  ⟨by decide, resume_idempotent (fun _ => some 0) true _ (by decide)⟩

/-- C1 (code bug): when the 3rd of 5 files returns failure status 0xC000,
`send_dicom_folder` still issues C-STOREs for files 4 and 5 and writes the
folder's sentinel.  `if not status` tests only whether the status Dataset is
empty, so a non-empty non-zero status is treated like success — contradicting
the fail-fast contract and the code's own comment that the check is about the
`0x0000` success status. -/
theorem store_failure_not_failfast :
    send_dicom_folder c1Oracle true [⟨false, c1Files⟩] =
      { stores := c1Files, folders := [⟨true, c1Files⟩],
        crashed := false, released := true } ∧
    c1Oracle ⟨"A3", "1.2.3"⟩ = some 49152 ∧ (49152 : Nat) ≠ 0 :=
  ⟨by decide, by decide, by decide⟩

theorem lookup_append_some (l1 l2 : List (String × String)) (p a : String)
    (h : l1.lookup p = some a) : (l1 ++ l2).lookup p = some a := by
  induction l1 with
  | nil => simp [List.lookup] at h
  | cons x xs ih =>
    cases x with
    | mk k v =>
      simp only [List.cons_append, List.lookup] at h ⊢
      by_cases hk : (p == k) = true
      · rw [hk] at h ⊢
        exact h
      · have hk2 : (p == k) = false := by simpa using hk
        rw [hk2] at h ⊢
        exact ih h

theorem lookup_append_new (l : List (String × String)) (p a : String)
    (h : l.lookup p = none) : (l ++ [(p, a)]).lookup p = some a := by
  induction l with
  | nil => simp [List.lookup]
  | cons x xs ih =>
    cases x with
    | mk k v =>
      simp only [List.cons_append, List.lookup] at h ⊢
      by_cases hk : (p == k) = true
      · rw [hk] at h
        exact absurd h (by simp)
      · have hk2 : (p == k) = false := by simpa using hk
        rw [hk2] at h ⊢
        exact ih h

theorem scanDir_cons_none (studies : List (String × String))
    (rest : List (Option ScanRecord)) :
    scanDir studies (none :: rest) =
      ((scanDir studies rest).1, .readError :: (scanDir studies rest).2) := rfl

theorem scanDir_cons_fail (studies : List (String × String)) (rec0 : ScanRecord)
    (rest : List (Option ScanRecord))
    (hg : generate_accession_number ⟨rec0.accessionNumber, rec0.studyInstanceUID⟩ = none) :
    scanDir studies (some rec0 :: rest) =
      ((scanDir studies rest).1, .readError :: (scanDir studies rest).2) := by
  rw [scanDir, hg]

theorem scanDir_cons_ok (studies : List (String × String)) (rec0 : ScanRecord)
    (rest : List (Option ScanRecord)) (dcm : DicomFile)
    (hg : generate_accession_number ⟨rec0.accessionNumber, rec0.studyInstanceUID⟩ = some dcm) :
    scanDir studies (some rec0 :: rest) =
      scanHit studies rec0.patientName dcm.AccessionNumber := by
  rw [scanDir, hg]

theorem scanHit_lookup (studies : List (String × String)) (pn acc p a : String)
    (h : studies.lookup p = some a) :
    (scanHit studies pn acc).1.lookup p = some a := by
  rw [scanHit]
  by_cases hin : (studies.lookup pn).isSome = true
  · rw [if_pos hin]
    exact h
  · rw [if_neg hin]
    exact lookup_append_some studies _ p a h

theorem scanHit_found (studies : List (String × String)) (pn acc p a : String)
    (h : ScanMsg.found p a ∈ (scanHit studies pn acc).2) :
    (scanHit studies pn acc).1.lookup p = some a := by
  rw [scanHit] at h ⊢
  by_cases hin : (studies.lookup pn).isSome = true
  · rw [if_pos hin] at h
    simp at h
  · rw [if_neg hin] at h ⊢
    simp only [List.mem_singleton, ScanMsg.found.injEq] at h
    obtain ⟨hp, ha⟩ := h
    subst hp
    subst ha
    exact lookup_append_new studies _ _ (Option.not_isSome_iff_eq_none.mp hin)

/-- An existing binding survives one directory scan. -/
theorem scanDir_lookup (files : List (Option ScanRecord))
    (studies : List (String × String)) (p a : String)
    (h : studies.lookup p = some a) :
    (scanDir studies files).1.lookup p = some a := by
  induction files with
  | nil => exact h
  | cons f rest ih =>
    cases f with
    | none =>
      rw [scanDir_cons_none]
      exact ih
    | some rec0 =>
      cases hg : generate_accession_number ⟨rec0.accessionNumber, rec0.studyInstanceUID⟩ with
      | none =>
        rw [scanDir_cons_fail studies rec0 rest hg]
        exact ih
      | some dcm =>
        rw [scanDir_cons_ok studies rec0 rest dcm hg]
        exact scanHit_lookup studies _ _ p a h

/-- An existing binding survives the whole walk. -/
theorem scanWalk_lookup (dirs : List (List (Option ScanRecord)))
    (studies : List (String × String)) (p a : String)
    (h : studies.lookup p = some a) :
    (scanWalk studies dirs).1.lookup p = some a := by
  induction dirs generalizing studies with
  | nil => exact h
  | cons d ds ih =>
    simp only [scanWalk]
    exact ih _ (scanDir_lookup d studies p a h)

/-- A `Found` message from one directory scan announces a fresh binding that
is present afterwards. -/
theorem scanDir_found (files : List (Option ScanRecord))
    (studies : List (String × String)) (p a : String)
    (h : ScanMsg.found p a ∈ (scanDir studies files).2) :
    (scanDir studies files).1.lookup p = some a := by
  induction files with
  | nil => simp [scanDir] at h
  | cons f rest ih =>
    cases f with
    | none =>
      rw [scanDir_cons_none] at h ⊢
      rcases List.mem_cons.mp h with h1 | h1
      · exact absurd h1 (by simp)
      · exact ih h1
    | some rec0 =>
      cases hg : generate_accession_number ⟨rec0.accessionNumber, rec0.studyInstanceUID⟩ with
      | none =>
        rw [scanDir_cons_fail studies rec0 rest hg] at h ⊢
        rcases List.mem_cons.mp h with h1 | h1
        · exact absurd h1 (by simp)
        · exact ih h1
      | some dcm =>
        rw [scanDir_cons_ok studies rec0 rest dcm hg] at h ⊢
        exact scanHit_found studies _ _ p a h

/-- A `Found` message from the walk announces a binding present at the end. -/
theorem scanWalk_found (dirs : List (List (Option ScanRecord)))
    (studies : List (String × String)) (p a : String)
    (h : ScanMsg.found p a ∈ (scanWalk studies dirs).2) :
    (scanWalk studies dirs).1.lookup p = some a := by
  induction dirs generalizing studies with
  | nil => simp [scanWalk] at h
  | cons d ds ih =>
    simp only [scanWalk, List.mem_append] at h ⊢
    rcases h with h | h
    · exact scanWalk_lookup ds _ p a (scanDir_found d studies p a h)
    · exact ih _ h

/-- C9 counterexample: patient `P` reappears in a second directory with a
different accession `A2`; the mapping keeps the first accession `A1`, but the
complete printed output is just the first `Found` line and the summary — no
warning of any kind is emitted for the conflicting reappearance. -/
theorem scan_duplicate_no_warning_cex :
    scan_dicom_folder [[some ⟨"P", "A1", "1.2.1"⟩], [some ⟨"P", "A2", "1.2.2"⟩]] =
      ([("P", "A1")], [.found "P" "A1", .summary 1]) := by
  decide

/-- C9 (amended): the scan output maps each patient identity to the accession
of its first occurrence — a binding, once made, survives the rest of the walk
untouched — and every `Found` message announces exactly the binding kept in
the final mapping.  A later occurrence of the same identity, even with a
different accession, is silently ignored: no message of any kind is printed
for it. -/
theorem scan_first_wins (dirs : List (List (Option ScanRecord))) (p a : String) :
    (∀ studies : List (String × String), studies.lookup p = some a →
      (scanWalk studies dirs).1.lookup p = some a) ∧
    (ScanMsg.found p a ∈ (scan_dicom_folder dirs).2 →
      (scan_dicom_folder dirs).1.lookup p = some a) := by
  constructor
  · intro studies h
    exact scanWalk_lookup dirs studies p a h
  · intro h
    simp only [scan_dicom_folder, List.mem_append, List.mem_singleton] at h
    rcases h with h | h
    · exact scanWalk_found dirs [] p a h
    · exact absurd h (by simp)

/-- Witness for `scan_first_wins` at the duplicate-identity input: the first
binding `("P", "A1")` survives the directory carrying the conflicting `A2`,
and the `Found P A1` message matches the final mapping. -/
theorem scan_first_wins_witness :
    ([("P", "A1")] : List (String × String)).lookup "P" = some "A1" ∧
    (scanWalk [("P", "A1")] [[some ⟨"P", "A2", "1.2.2"⟩]]).1.lookup "P" = some "A1" ∧
    (ScanMsg.found "P" "A1" ∈
      (scan_dicom_folder [[some ⟨"P", "A1", "1.2.1"⟩], [some ⟨"P", "A2", "1.2.2"⟩]]).2) ∧
    (scan_dicom_folder [[some ⟨"P", "A1", "1.2.1"⟩], [some ⟨"P", "A2", "1.2.2"⟩]]).1.lookup "P" =
      some "A1" :=
  ⟨by decide,
   (scan_first_wins [[some ⟨"P", "A2", "1.2.2"⟩]] "P" "A1").1 [("P", "A1")] (by decide),
   by decide,
   (scan_first_wins [[some ⟨"P", "A1", "1.2.1"⟩], [some ⟨"P", "A2", "1.2.2"⟩]] "P" "A1").2
     (by decide)⟩

theorem sameCore_refl (p : FionaProject) : sameCore p p := ⟨rfl, rfl, rfl, rfl⟩

theorem sameCore_trans {p q r : FionaProject} (h1 : sameCore p q) (h2 : sameCore q r) :
    sameCore p r :=
  ⟨h1.1.trans h2.1, h1.2.1.trans h2.2.1, h1.2.2.1.trans h2.2.2.1, h1.2.2.2.trans h2.2.2.2⟩

theorem sameCore_create (p : FionaProject) (subj_id : String) (resp : RemoteResp) :
    sameCore p (fiona_create_subject p subj_id resp).2.1 := by
  rw [fiona_create_subject]
  split
  · exact sameCore_refl p
  · split
    · split
      · exact sameCore_refl p
      · exact ⟨rfl, rfl, rfl, rfl⟩
    · exact ⟨rfl, rfl, rfl, rfl⟩

theorem forall2_sameCore_refl (l : List FionaProject) : List.Forall₂ sameCore l l := by
  induction l with
  | nil => exact List.Forall₂.nil
  | cons p ps ih => exact List.Forall₂.cons (sameCore_refl p) ih

theorem forall2_sameCore_trans :
    ∀ {l1 l2 l3 : List FionaProject}, List.Forall₂ sameCore l1 l2 →
      List.Forall₂ sameCore l2 l3 → List.Forall₂ sameCore l1 l3 := by
  intro l1 l2 l3 h1
  induction h1 generalizing l3 with
  | nil =>
    intro h2
    cases h2
    exact List.Forall₂.nil
  | cons hpq h12 ih =>
    intro h2
    cases h2 with
    | cons hqr h23 => exact List.Forall₂.cons (sameCore_trans hpq hqr) (ih h23)

theorem decode_sameCore {p q : FionaProject} (h : sameCore p q) (text : String) :
    decode p text = decode q text := by
  obtain ⟨hn, hr, hs, he⟩ := h
  rw [decode, decode, hr, hs, he]

theorem firstDecode_cons_err (sn : String) (proj : FionaProject) (rest : List FionaProject)
    (e : Unit) (hd : decode proj sn = .error e) :
    firstDecode sn (proj :: rest) = .error e := by
  rw [firstDecode, hd]

theorem firstDecode_cons_none (sn : String) (proj : FionaProject) (rest : List FionaProject)
    (hd : decode proj sn = .ok none) :
    firstDecode sn (proj :: rest) = firstDecode sn rest := by
  rw [firstDecode, hd]

theorem firstDecode_cons_some (sn : String) (proj : FionaProject) (rest : List FionaProject)
    (subj_id event_id : String) (hd : decode proj sn = .ok (some (subj_id, event_id))) :
    firstDecode sn (proj :: rest) = .ok (some (proj.name, subj_id, event_id)) := by
  rw [firstDecode, hd]

theorem coupleStudy_cons_err (oracle : String → String → RemoteResp) (sn acc : String)
    (proj : FionaProject) (rest : List FionaProject) (e : Unit)
    (hd : decode proj sn = .error e) :
    coupleStudy oracle sn acc (proj :: rest) = .error e := by
  rw [coupleStudy, hd]

theorem coupleStudy_cons_none (oracle : String → String → RemoteResp) (sn acc : String)
    (proj : FionaProject) (rest : List FionaProject) (hd : decode proj sn = .ok none) :
    coupleStudy oracle sn acc (proj :: rest) =
      match coupleStudy oracle sn acc rest with
      | .error e => .error e
      | .ok (s, rest2) => .ok (s, proj :: rest2) := by
  rw [coupleStudy, hd]

theorem coupleStudy_cons_some (oracle : String → String → RemoteResp) (sn acc : String)
    (proj : FionaProject) (rest : List FionaProject) (subj_id event_id : String)
    (hd : decode proj sn = .ok (some (subj_id, event_id))) :
    coupleStudy oracle sn acc (proj :: rest) =
      .ok (rowString acc proj.name subj_id event_id,
        (if subj_id ∈ proj.subjects then proj
         else (fiona_create_subject proj subj_id (oracle proj.name subj_id)).2.1) :: rest) := by
  rw [coupleStudy, hd]

theorem coupleAll_cons_err (oracle : String → String → RemoteResp) (sn acc : String)
    (rest : List (String × String)) (ps : List FionaProject) (e : Unit)
    (hc : coupleStudy oracle sn acc ps = .error e) :
    coupleAll oracle ((sn, acc) :: rest) ps = .error e := by
  rw [coupleAll, hc]

theorem coupleAll_cons_ok (oracle : String → String → RemoteResp) (sn acc : String)
    (rest : List (String × String)) (ps : List FionaProject) (row : String)
    (ps2 : List FionaProject) (hc : coupleStudy oracle sn acc ps = .ok (row, ps2)) :
    coupleAll oracle ((sn, acc) :: rest) ps =
      match coupleAll oracle rest ps2 with
      | .error e => .error e
      | .ok (s, ps3) => .ok (row ++ s, ps3) := by
  rw [coupleAll, hc]

theorem specRowList_cons_err (qs : List FionaProject) (sn acc : String)
    (rest : List (String × String)) (e : Unit) (hfd : firstDecode sn qs = .error e) :
    specRowList qs ((sn, acc) :: rest) = .error e := by
  rw [specRowList, hfd]

theorem specRowList_cons_none (qs : List FionaProject) (sn acc : String)
    (rest : List (String × String)) (hfd : firstDecode sn qs = .ok none) :
    specRowList qs ((sn, acc) :: rest) = specRowList qs rest := by
  rw [specRowList, hfd]

theorem specRowList_cons_some (qs : List FionaProject) (sn acc : String)
    (rest : List (String × String)) (n subj_id event_id : String)
    (hfd : firstDecode sn qs = .ok (some (n, subj_id, event_id))) :
    specRowList qs ((sn, acc) :: rest) =
      match specRowList qs rest with
      | .error e => .error e
      | .ok rows => .ok (rowString acc n subj_id event_id :: rows) := by
  rw [specRowList, hfd]

/-- A successful inner loop only updates subject caches: the project cores
are preserved pointwise. -/
theorem coupleStudy_core (oracle : String → String → RemoteResp) (sn acc : String) :
    ∀ (ps : List FionaProject) (r : String × List FionaProject),
      coupleStudy oracle sn acc ps = .ok r → List.Forall₂ sameCore ps r.2 := by
  intro ps
  induction ps with
  | nil =>
    intro r h
    injection h with h2
    subst h2
    exact List.Forall₂.nil
  | cons proj rest ih =>
    intro r h
    cases hd : decode proj sn with
    | error e =>
      rw [coupleStudy_cons_err oracle sn acc proj rest e hd] at h
      exact Except.noConfusion h
    | ok o =>
      cases o with
      | none =>
        rw [coupleStudy_cons_none oracle sn acc proj rest hd] at h
        cases hc : coupleStudy oracle sn acc rest with
        | error e =>
          rw [hc] at h
          exact Except.noConfusion h
        | ok pr =>
          obtain ⟨s, rest2⟩ := pr
          rw [hc] at h
          injection h with h2
          subst h2
          exact List.Forall₂.cons (sameCore_refl proj) (ih (s, rest2) hc)
      | some se =>
        obtain ⟨subj_id, event_id⟩ := se
        rw [coupleStudy_cons_some oracle sn acc proj rest subj_id event_id hd] at h
        injection h with h2
        subst h2
        refine List.Forall₂.cons ?_ (forall2_sameCore_refl rest)
        by_cases hm : subj_id ∈ proj.subjects
        · rw [if_pos hm]
          exact sameCore_refl proj
        · rw [if_neg hm]
          exact sameCore_create proj subj_id (oracle proj.name subj_id)

/-- The row text produced by the inner loop equals the spec's first-match row,
computed against any pointwise core-equal project list. -/
theorem coupleStudy_fst (oracle : String → String → RemoteResp) (sn acc : String) :
    ∀ {qs ps : List FionaProject}, List.Forall₂ sameCore qs ps →
      Except.map Prod.fst (coupleStudy oracle sn acc ps) =
        Except.map (rowOf acc) (firstDecode sn qs) := by
  intro qs ps hF
  induction hF with
  | nil => rfl
  | cons h1 h2 ih =>
    rename_i q p qs2 ps2
    cases hd : decode q sn with
    | error e =>
      have hdp : decode p sn = .error e := (decode_sameCore h1 sn).symm.trans hd
      rw [firstDecode_cons_err sn q qs2 e hd,
        coupleStudy_cons_err oracle sn acc p ps2 e hdp]
      rfl
    | ok o =>
      have hdp : decode p sn = .ok o := (decode_sameCore h1 sn).symm.trans hd
      cases o with
      | none =>
        rw [firstDecode_cons_none sn q qs2 hd,
          coupleStudy_cons_none oracle sn acc p ps2 hdp, ← ih]
        cases hc : coupleStudy oracle sn acc ps2 with
        | error e => rfl
        | ok pr =>
          obtain ⟨s, rest2⟩ := pr
          rfl
      | some se =>
        obtain ⟨subj_id, event_id⟩ := se
        rw [firstDecode_cons_some sn q qs2 subj_id event_id hd,
          coupleStudy_cons_some oracle sn acc p ps2 subj_id event_id hdp, h1.1]
        rfl

/-- The study loop's output text equals the concatenation of the spec's
first-match rows over the original (unmutated) project list. -/
theorem coupleAll_fst (oracle : String → String → RemoteResp) :
    ∀ (studies : List (String × String)) (ps qs : List FionaProject),
      List.Forall₂ sameCore qs ps →
      Except.map Prod.fst (coupleAll oracle studies ps) =
        Except.map concatRows (specRowList qs studies) := by
  intro studies
  induction studies with
  | nil =>
    intro ps qs hF
    rfl
  | cons st rest ih =>
    obtain ⟨sn, acc⟩ := st
    intro ps qs hF
    have hstudy := coupleStudy_fst oracle sn acc hF
    cases hc : coupleStudy oracle sn acc ps with
    | error e =>
      rw [hc] at hstudy
      rw [coupleAll_cons_err oracle sn acc rest ps e hc]
      cases hfd : firstDecode sn qs with
      | error e2 =>
        rw [specRowList_cons_err qs sn acc rest e2 hfd]
        rfl
      | ok o =>
        rw [hfd] at hstudy
        cases o <;> simp [Except.map] at hstudy
    | ok pr =>
      obtain ⟨row, ps2⟩ := pr
      rw [hc] at hstudy
      have hF2 : List.Forall₂ sameCore qs ps2 :=
        forall2_sameCore_trans hF (coupleStudy_core oracle sn acc ps (row, ps2) hc)
      rw [coupleAll_cons_ok oracle sn acc rest ps row ps2 hc]
      cases hfd : firstDecode sn qs with
      | error e =>
        rw [hfd] at hstudy
        simp [Except.map] at hstudy
      | ok o =>
        rw [hfd] at hstudy
        cases o with
        | none =>
          have hrow : row = "" := by simpa [Except.map, rowOf] using hstudy
          rw [specRowList_cons_none qs sn acc rest hfd]
          subst hrow
          have hih := ih ps2 qs hF2
          cases hca : coupleAll oracle rest ps2 with
          | error e =>
            rw [hca] at hih
            exact hih
          | ok pr2 =>
            obtain ⟨s1, ps3⟩ := pr2
            rw [hca] at hih
            cases hsr : specRowList qs rest with
            | error e2 =>
              rw [hsr] at hih
              simp [Except.map] at hih
            | ok rows =>
              rw [hsr] at hih
              have hs1 : s1 = concatRows rows := by simpa [Except.map] using hih
              subst hs1
              rfl
        | some t =>
          obtain ⟨n, subj_id, event_id⟩ := t
          have hrow : row = rowString acc n subj_id event_id := by
            simpa [Except.map, rowOf] using hstudy
          rw [specRowList_cons_some qs sn acc rest n subj_id event_id hfd]
          subst hrow
          have hih := ih ps2 qs hF2
          cases hca : coupleAll oracle rest ps2 with
          | error e =>
            rw [hca] at hih
            cases hsr : specRowList qs rest with
            | error e2 => rfl
            | ok rows =>
              rw [hsr] at hih
              simp [Except.map] at hih
          | ok pr2 =>
            obtain ⟨s1, ps3⟩ := pr2
            rw [hca] at hih
            cases hsr : specRowList qs rest with
            | error e2 =>
              rw [hsr] at hih
              simp [Except.map] at hih
            | ok rows =>
              rw [hsr] at hih
              have hs1 : s1 = concatRows rows := by simpa [Except.map] using hih
              subst hs1
              rfl

/-- On a successful run, the file content is the header followed by the
concatenated spec rows over the original project list. -/
theorem coupling_spec_content (oracle : String → String → RemoteResp)
    (projects : List FionaProject) (studies : List (String × String)) (content : String)
    (h : Except.map Prod.fst (fiona_generate_coupling oracle projects studies) = .ok content) :
    Except.map (fun rows => couplingHeader ++ concatRows rows) (specRowList projects studies) =
      .ok content := by
  have hmain := coupleAll_fst oracle studies projects projects (forall2_sameCore_refl projects)
  cases hca : coupleAll oracle studies projects with
  | error e =>
    rw [fiona_generate_coupling, hca] at h
    simp [Except.map] at h
  | ok pr =>
    obtain ⟨s, ps⟩ := pr
    rw [fiona_generate_coupling, hca] at h
    have hcontent : couplingHeader ++ s = content := by simpa [Except.map] using h
    rw [hca] at hmain
    cases hsr : specRowList projects studies with
    | error e =>
      rw [hsr] at hmain
      simp [Except.map] at hmain
    | ok rows =>
      rw [hsr] at hmain
      have hs : s = concatRows rows := by simpa [Except.map] using hmain
      subst hs
      show Except.ok (couplingHeader ++ concatRows rows) = Except.ok content
      rw [hcontent]

/-- Every spec row has the four comma-separated fields and the CRLF ending. -/
theorem specRowList_shape (qs : List FionaProject) :
    ∀ (studies : List (String × String)) (rows : List String),
      specRowList qs studies = .ok rows →
      ∀ r ∈ rows, ∃ acc n s ev, r = acc ++ "," ++ n ++ "," ++ s ++ "," ++ ev ++ "\r\n" := by
  intro studies
  induction studies with
  | nil =>
    intro rows h r hr
    injection h with h2
    subst h2
    simp at hr
  | cons st rest ih =>
    obtain ⟨sn, acc⟩ := st
    intro rows h r hr
    cases hfd : firstDecode sn qs with
    | error e =>
      rw [specRowList_cons_err qs sn acc rest e hfd] at h
      exact Except.noConfusion h
    | ok o =>
      cases o with
      | none =>
        rw [specRowList_cons_none qs sn acc rest hfd] at h
        exact ih rows h r hr
      | some t =>
        obtain ⟨n, subj_id, event_id⟩ := t
        rw [specRowList_cons_some qs sn acc rest n subj_id event_id hfd] at h
        cases hsr : specRowList qs rest with
        | error e =>
          rw [hsr] at h
          exact Except.noConfusion h
        | ok rows2 =>
          rw [hsr] at h
          injection h with h2
          subst h2
          rcases List.mem_cons.mp hr with h1 | h1
          · exact ⟨acc, n, subj_id, event_id, by rw [h1]; rfl⟩
          · exact ih rows2 hsr r h1

/-- There is exactly one spec row per study whose label matches some
project and none for the others. -/
theorem specRowList_count (qs : List FionaProject) :
    ∀ (studies : List (String × String)) (rows : List String),
      specRowList qs studies = .ok rows →
      rows.length = (studies.filter (fun st => matchedStudy qs st.1)).length := by
  intro studies
  induction studies with
  | nil =>
    intro rows h
    injection h with h2
    subst h2
    rfl
  | cons st rest ih =>
    obtain ⟨sn, acc⟩ := st
    intro rows h
    cases hfd : firstDecode sn qs with
    | error e =>
      rw [specRowList_cons_err qs sn acc rest e hfd] at h
      exact Except.noConfusion h
    | ok o =>
      cases o with
      | none =>
        rw [specRowList_cons_none qs sn acc rest hfd] at h
        have hm : matchedStudy qs sn = false := by rw [matchedStudy, hfd]
        simp [List.filter_cons, hm]
        exact ih rows h
      | some t =>
        obtain ⟨n, subj_id, event_id⟩ := t
        rw [specRowList_cons_some qs sn acc rest n subj_id event_id hfd] at h
        cases hsr : specRowList qs rest with
        | error e =>
          rw [hsr] at h
          exact Except.noConfusion h
        | ok rows2 =>
          rw [hsr] at h
          injection h with h2
          subst h2
          have hm : matchedStudy qs sn = true := by rw [matchedStudy, hfd]
          simp [List.filter_cons, hm]
          exact ih rows2 hsr

/-- C7: on a successful run, the file content equals the header plus the
concatenation of the spec's first-match rows with respect to the ORIGINAL
project list — for every study at most one row, that of the first project in
configured order whose decode matches; and when the first project matches a
label, the first-match outcome is its row alone, so no later project
contributes even if its pattern would also match. -/
theorem coupling_first_match_wins (oracle : String → String → RemoteResp)
    (projects : List FionaProject) (studies : List (String × String)) (content : String)
    (h : Except.map Prod.fst (fiona_generate_coupling oracle projects studies) = .ok content) :
    Except.map (fun rows => couplingHeader ++ concatRows rows) (specRowList projects studies) =
      .ok content ∧
    ∀ (p : FionaProject) (rest : List FionaProject) (sn subj ev : String),
      projects = p :: rest → decode p sn = .ok (some (subj, ev)) →
      firstDecode sn projects = .ok (some (p.name, subj, ev)) := by
  refine ⟨coupling_spec_content oracle projects studies content h, ?_⟩
  rintro p rest sn subj ev rfl hd
  exact firstDecode_cons_some sn p rest subj ev hd

/-- Witness for `coupling_first_match_wins`: with two projects whose patterns
both match `NDOSE_5001_1`, only the first-configured project's row appears. -/
theorem coupling_first_match_wins_witness :
    Except.map Prod.fst
        (fiona_generate_coupling wOracle [mkNdoseAD ["e1", "e2"] [], wProjB] wStudies) =
      .ok wContent ∧
    Except.map (fun rows => couplingHeader ++ concatRows rows)
        (specRowList [mkNdoseAD ["e1", "e2"] [], wProjB] wStudies) = .ok wContent :=
  ⟨by rfl,
   (coupling_first_match_wins wOracle [mkNdoseAD ["e1", "e2"] [], wProjB] wStudies wContent
      (by rfl)).1⟩

/-- C8: on a successful run the artifact is exactly the header row
`AccessionNumber,ProjectName,subjectid,eventname` (CRLF-terminated) followed
by the spec rows in scan order: every row consists of the four
comma-separated fields ending in CRLF, there is exactly one row per study
whose label matches some project, and studies matching no project contribute
no row. -/
theorem coupling_artifact_format (oracle : String → String → RemoteResp)
    (projects : List FionaProject) (studies : List (String × String)) (content : String)
    (h : Except.map Prod.fst (fiona_generate_coupling oracle projects studies) = .ok content) :
    couplingHeader = "AccessionNumber,ProjectName,subjectid,eventname\r\n" ∧
    Except.map (fun rows => couplingHeader ++ concatRows rows) (specRowList projects studies) =
      .ok content ∧
    ∀ rows, specRowList projects studies = .ok rows →
      (∀ r ∈ rows, ∃ acc n s ev, r = acc ++ "," ++ n ++ "," ++ s ++ "," ++ ev ++ "\r\n") ∧
      rows.length = (studies.filter (fun st => matchedStudy projects st.1)).length := by
  refine ⟨rfl, coupling_spec_content oracle projects studies content h, ?_⟩
  intro rows hsr
  exact ⟨specRowList_shape projects studies rows hsr, specRowList_count projects studies rows hsr⟩

/-- Witness for `coupling_artifact_format`: the artifact has the exact header
plus one CRLF row for the single matching study; `Bob` contributes nothing. -/
theorem coupling_artifact_format_witness :
    Except.map Prod.fst (fiona_generate_coupling wOracle [mkNdoseAD ["e1", "e2"] []] wStudies2) =
      .ok ("AccessionNumber,ProjectName,subjectid,eventname\r\n" ++ wRow2) ∧
    specRowList [mkNdoseAD ["e1", "e2"] []] wStudies2 = .ok [wRow2] ∧
    (∀ r ∈ [wRow2], ∃ acc n s ev, r = acc ++ "," ++ n ++ "," ++ s ++ "," ++ ev ++ "\r\n") ∧
    [wRow2].length =
      (wStudies2.filter (fun st => matchedStudy [mkNdoseAD ["e1", "e2"] []] st.1)).length :=
  ⟨by rfl, by rfl,
   ((coupling_artifact_format wOracle [mkNdoseAD ["e1", "e2"] []] wStudies2
      ("AccessionNumber,ProjectName,subjectid,eventname\r\n" ++ wRow2) (by rfl)).2.2
      [wRow2] (by rfl)).1,
   ((coupling_artifact_format wOracle [mkNdoseAD ["e1", "e2"] []] wStudies2
      ("AccessionNumber,ProjectName,subjectid,eventname\r\n" ++ wRow2) (by rfl)).2.2
      [wRow2] (by rfl)).2⟩

end PyFiona
